import Mathlib

/-!
# Verification of the VectorCloud remote-control session core

Shallow embedding of `src/vectorcloud/flask_app/routes.py`
(class `RemoteControlVector` and the helpers around it).

Modelling conventions:
* Python numbers appearing in motor-speed arithmetic are embedded as `ℚ`
  (the source uses ints/floats such as `0.5`, `1.5`, `0.03`; no rounding is
  performed anywhere in the modelled code).
* The boolean-valued held-key fields (`drive_forwards`, ...) store the boolean
  `is_key_down` passed in from the boundary; Python later uses them in
  arithmetic, which we render through `bnum`.
* The opaque actuator (`self.vector`) is modelled by a trace of emitted
  commands (`Cmd`); fallible actuator polls (`play_animation`/`say_text`
  returning a truthy completion flag) become an explicit `Bool` argument.
* Python operations that can raise (`list.index`, out-of-range list item
  assignment / lookup) return `Option`, with `none` for the raised exception.
* The "function identity as dispatch tag" pattern of the source (queue entries
  are `(callable, arg)` pairs compared by reference) is rendered as the tagged
  variant `Action`, with `Speak` standing for `self.vector.say_text` and
  `PlayAnimation` for `self.vector.anim.play_animation`.
-/

set_option maxHeartbeats 1000000

namespace VC

/-- A discrete one-shot command held in the action queue.
Source: the `(func, args)` tuples built at routes.py lines 275 and 277. -/
inductive Action where
  | speak (text : String)
  | playAnimation (name : String)
  deriving DecidableEq, Repr

/-- A command issued to the actuator interface (the opaque `self.vector`). -/
inductive Cmd where
  | setWheelMotors (l r lAccel rAccel : ℚ)
  | setLiftMotor (vel : ℚ)
  | setHeadMotor (vel : ℚ)
  | playAnimation (name : String)
  | speakText (text : String)
  deriving DecidableEq, Repr

/-- The mutable state of a `RemoteControlVector` session
(routes.py `__init__`, lines 119-173), minus the opaque robot handle. -/
structure RCState where
  drive_forwards : Bool
  drive_back : Bool
  turn_left : Bool
  turn_right : Bool
  lift_up : Bool
  lift_down : Bool
  head_up : Bool
  head_down : Bool
  go_fast : Bool
  go_slow : Bool
  is_mouse_look_enabled : Bool
  mouse_dir : ℚ
  anim_names : List String
  anim_index_for_key : List Nat
  action_queue : List Action
  text_to_say : String
  deriving DecidableEq, Repr

/-- Python's implicit bool-to-number coercion used in the velocity formulas. -/
def bnum (b : Bool) : ℚ := if b then 1 else 0

/-- routes.py lines 107-114: `remap_to_range`. -/
def remap_to_range (x x_min x_max out_min out_max : ℚ) : ℚ :=
  if x < x_min then out_min
  else if x > x_max then out_max
  else out_min + (x - x_min) / (x_max - x_min) * (out_max - out_min)

/-- routes.py lines 316-322: `pick_speed`.  Note the Python control flow: when
`go_fast` is truthy the `elif self.go_slow` branch is never reached, so the
inner failed test falls through to `return mid_speed`. -/
def pick_speed (s : RCState) (fast_speed mid_speed slow_speed : ℚ) : ℚ :=
  if s.go_fast then
    if !s.go_slow then fast_speed else mid_speed
  else if s.go_slow then slow_speed
  else mid_speed

/-- routes.py lines 335-350: `update_mouse_driving`, as the single wheel-motor
command it issues (the method touches no session state). -/
def update_mouse_driving_cmd (s : RCState) : Cmd :=
  let drive_dir : ℚ := bnum s.drive_forwards - bnum s.drive_back
  let turn_dir0 : ℚ := (bnum s.turn_right - bnum s.turn_left) + s.mouse_dir
  let turn_dir : ℚ := if drive_dir < 0 then -turn_dir0 else turn_dir0
  let forward_speed := pick_speed s 150 75 50
  let turn_speed := pick_speed s 100 50 30
  let l_wheel_speed := drive_dir * forward_speed + turn_speed * turn_dir
  let r_wheel_speed := drive_dir * forward_speed - turn_speed * turn_dir
  Cmd.setWheelMotors l_wheel_speed r_wheel_speed
    (l_wheel_speed * 4) (r_wheel_speed * 4)

/-- routes.py lines 324-327: `update_lift` (command issued; no state change). -/
def update_lift_cmds (s : RCState) : List Cmd :=
  [Cmd.setLiftMotor ((bnum s.lift_up - bnum s.lift_down) * pick_speed s 8 4 2)]

/-- routes.py lines 329-333: `update_head`; the discrete head command is
suppressed while mouse-look is enabled. -/
def update_head_cmds (s : RCState) : List Cmd :=
  if !s.is_mouse_look_enabled then
    [Cmd.setHeadMotor ((bnum s.head_up - bnum s.head_down) * pick_speed s 2 1 (1/2))]
  else []

/-- routes.py line 183: the local `mouse_sensitivity` constant. -/
def mouse_sensitivity : ℚ := 3/2

/-- routes.py lines 178-191: `handle_mouse`.  `head_angle_deg` is the
actuator's currently reported head angle in degrees
(`util.radians(self.vector.head_angle_rad).degrees`). -/
def handle_mouse (s : RCState) (mouse_x mouse_y head_angle_deg : ℚ) :
    RCState × List Cmd :=
  if s.is_mouse_look_enabled then
    let s1 := { s with
      mouse_dir := remap_to_range mouse_x 0 1 (-mouse_sensitivity) mouse_sensitivity }
    let desired_head_angle := remap_to_range mouse_y 0 1 45 (-25)
    let head_vel := (desired_head_angle - head_angle_deg) * (3/100)
    (s1, [update_mouse_driving_cmd s1, Cmd.setHeadMotor head_vel])
  else (s, [])

/-- routes.py lines 193-201: `set_mouse_look_enabled`. -/
def set_mouse_look_enabled (s : RCState) (enabled : Bool) : RCState × List Cmd :=
  let was := s.is_mouse_look_enabled
  let s1 := { s with is_mouse_look_enabled := enabled }
  if !enabled then
    let s2 := { s1 with mouse_dir := 0 }
    if was then (s2, [update_mouse_driving_cmd s2] ++ update_head_cmds s2)
    else (s2, [])
  else (s1, [])

/-- Python `list.index`: index of the first occurrence, `none` for the raised
`ValueError` when absent (used at routes.py line 165). -/
def pyIndex : List String → String → Option Nat
  | [], _ => none
  | y :: ys, x => if y = x then some 0 else (pyIndex ys x).map (· + 1)

/-- Python list item assignment `l[i] = v` with its signed-index semantics:
`0 ≤ i < len` writes at `i`; `-len ≤ i < 0` writes at `len + i`; anything else
raises `IndexError` (`none`). -/
def pyListSet (l : List Nat) (i : Int) (v : Nat) : Option (List Nat) :=
  if 0 ≤ i then
    if i < (l.length : Int) then some (l.set i.toNat v) else none
  else
    if 0 ≤ (l.length : Int) + i then some (l.set ((l.length : Int) + i).toNat v)
    else none

/-- routes.py lines 175-176: `set_anim` — an unguarded list item assignment. -/
def set_anim (s : RCState) (key_index : Int) (anim_index : Nat) : Option RCState :=
  match pyListSet s.anim_index_for_key key_index anim_index with
  | some l => some { s with anim_index_for_key := l }
  | none => none

/-- routes.py lines 279-283: `key_code_to_anim_name`; each of the two list
lookups raises (`none`) when out of range. -/
def key_code_to_anim_name (s : RCState) (key_code : Nat) : Option String :=
  match s.anim_index_for_key[key_code - 48]? with
  | some anim_num => s.anim_names[anim_num]?
  | none => none

/-- routes.py lines 304-307: `queue_action`. -/
def queue_action (s : RCState) (new_action : Action) : RCState :=
  let q := if s.action_queue.length > 10 then s.action_queue.tail
           else s.action_queue
  { s with action_queue := q ++ [new_action] }

/-- routes.py lines 206-217: `update_drive_state`.  Returns the updated state
together with the `update_driving` flag. -/
def update_drive_state (s : RCState) (key_code : Nat) (is_key_down speed_changed : Bool) :
    RCState × Bool :=
  if key_code = 87 then ({ s with drive_forwards := is_key_down }, true)
  else if key_code = 83 then ({ s with drive_back := is_key_down }, true)
  else if key_code = 65 then ({ s with turn_left := is_key_down }, true)
  else if key_code = 68 then ({ s with turn_right := is_key_down }, true)
  else (s, speed_changed)

/-- routes.py lines 219-229: `update_lift_state`. -/
def update_lift_state (s : RCState) (key_code : Nat) (is_key_down speed_changed : Bool) :
    RCState × Bool :=
  if key_code = 82 then ({ s with lift_up := is_key_down }, true)
  else if key_code = 70 then ({ s with lift_down := is_key_down }, true)
  else (s, speed_changed)

/-- routes.py lines 231-241: `update_head_state`. -/
def update_head_state (s : RCState) (key_code : Nat) (is_key_down speed_changed : Bool) :
    RCState × Bool :=
  if key_code = 84 then ({ s with head_up := is_key_down }, true)
  else if key_code = 71 then ({ s with head_down := is_key_down }, true)
  else (s, speed_changed)

/-- routes.py lines 243-269: `handle_key` up to (and excluding) the key-release
enqueue block: modifier update, intent updates, and the motor commands issued
in source order (driving, head, lift). -/
def handle_key_pre (s : RCState) (key_code : Nat) (is_shift_down is_alt_down is_key_down : Bool) :
    RCState × List Cmd :=
  let s0 := { s with go_fast := is_shift_down, go_slow := is_alt_down }
  let speed_changed := (s.go_fast != is_shift_down) || (s.go_slow != is_alt_down)
  let d := update_drive_state s0 key_code is_key_down speed_changed
  let l := update_lift_state d.1 key_code is_key_down speed_changed
  let h := update_head_state l.1 key_code is_key_down speed_changed
  let s3 := h.1
  (s3, (if d.2 then [update_mouse_driving_cmd s3] else []) ++
       (if h.2 then update_head_cmds s3 else []) ++
       (if l.2 then update_lift_cmds s3 else []))

/-- routes.py lines 271-277: the key-release enqueue block at the end of
`handle_key` (`none` for an `IndexError` escaping `key_code_to_anim_name`). -/
def handle_key_enq (s : RCState) (key_code : Nat) (is_key_down : Bool) : Option RCState :=
  if !is_key_down then
    if 48 ≤ key_code ∧ key_code ≤ 57 then
      match key_code_to_anim_name s key_code with
      | some anim_name => some (queue_action s (Action.playAnimation anim_name))
      | none => none
    else if key_code = 32 then
      some (queue_action s (Action.speak s.text_to_say))
    else some s
  else some s

/-- routes.py lines 243-277: the whole of `handle_key`. -/
def handle_key (s : RCState) (key_code : Nat) (is_shift_down is_alt_down is_key_down : Bool) :
    Option (RCState × List Cmd) :=
  match handle_key_enq (handle_key_pre s key_code is_shift_down is_alt_down is_key_down).1
      key_code is_key_down with
  | some s2 => some (s2, (handle_key_pre s key_code is_shift_down is_alt_down is_key_down).2)
  | none => none

/-- The actuator call a queued action stands for (Speak → speak-text,
PlayAnimation → play-animation); dispatch by tag replaces the source's
comparison of callables. -/
def dispatch_action : Action → Cmd
  | Action.speak text => Cmd.speakText text
  | Action.playAnimation name => Cmd.playAnimation name

/-- routes.py lines 309-314: `update` — the drain step.  `completed` is the
truthy/falsy result of the actuator poll (`queued_action(action_args)`). -/
def update (s : RCState) (completed : Bool) : RCState × List Cmd :=
  match s.action_queue with
  | [] => (s, [])
  | a :: rest =>
    if completed then ({ s with action_queue := rest }, [dispatch_action a])
    else (s, [dispatch_action a])

/-- Iterated drain steps, one actuator poll result per tick. -/
def drainN (s : RCState) (resps : List Bool) : RCState :=
  resps.foldl (fun st r => (update st r).1) s

/-- Iterated enqueues. -/
def queueAll (s : RCState) (acts : List Action) : RCState :=
  acts.foldl queue_action s

/-- routes.py lines 285-290: `func_to_name`, as tag dispatch. -/
def func_to_name : Action → String
  | Action.speak _ => "say_text"
  | Action.playAnimation _ => "play_anim"

/-- routes.py lines 292-294: `action_to_text` (Python `str` of a string
argument is the string itself). -/
def action_to_text (a : Action) : String :=
  func_to_name a ++ "( " ++ (match a with
    | Action.speak text => text
    | Action.playAnimation name => name) ++ " )"

/-- The accumulator loop of routes.py lines 296-302 (`i` starts at 0). -/
def aqtt_go (out : String) (i : Nat) : List Action → String
  | [] => out
  | a :: rest => aqtt_go (out ++ "[" ++ toString i ++ "] " ++ action_to_text a) (i + 1) rest

/-- routes.py lines 296-302: `action_queue_to_text`. -/
def action_queue_to_text (q : List Action) : String :=
  aqtt_go "" 0 q

/-- The accumulator loop of routes.py lines 710-714 (`i` starts at 1). -/
def updateVector_go (out : String) (i : Nat) : List Action → String
  | [] => out
  | a :: rest => updateVector_go (out ++ toString i ++ ": " ++ action_to_text a ++ "<br>") (i + 1) rest

/-- routes.py lines 709-716: the queue rendering produced by the
`/updateVector` handler after its drain step. -/
def updateVector_text (q : List Action) : String :=
  "Action Queue:<br>" ++ updateVector_go "" 1 q ++ "\n"

/-- routes.py lines 142-144. -/
def bad_anim_names : List String := ["ANIMATION_TEST", "soundTestAnim"]

/-- routes.py lines 150-159. -/
def default_anims_for_keys : List String :=
  ["anim_turn_left_01",
   "anim_blackjack_victorwin_01",
   "anim_pounce_success_02",
   "anim_feedback_shutup_01",
   "anim_knowledgegraph_success_01",
   "anim_wakeword_groggyeyes_listenloop_01",
   "anim_fistbump_success_01",
   "anim_reacttoface_unidentified_01",
   "anim_rtpickup_loop_10",
   "anim_volume_stage_05"]

/-- Lexicographic comparison on code points, the order `list.sort` uses on
Python strings. -/
def charListLe : List Char → List Char → Bool
  | [], _ => true
  | _ :: _, [] => false
  | a :: as, b :: bs =>
    if a.toNat < b.toNat then true
    else if b.toNat < a.toNat then false
    else charListLe as bs

/-- `charListLe` on the underlying character sequences. -/
def strLe (a b : String) : Bool := charListLe a.data b.data

/-- Insertion of one string into a sorted list (model of `list.sort`). -/
def insortStr (s : String) : List String → List String
  | [] => [s]
  | x :: xs => if strLe s x then s :: x :: xs else x :: insortStr s xs

/-- Ascending sort, modelling `all_anim_names.sort()` at routes.py line 138. -/
def sortStrings (l : List String) : List String := l.foldr insortStr []

/-- routes.py lines 137-148: the sorted catalog with the bad names filtered. -/
def computeAnimNames (all_anim_names : List String) : List String :=
  (sortStrings all_anim_names).filter (fun n => !bad_anim_names.contains n)

/-- The binding loop of routes.py lines 161-170, slot counter `kI` explicit. -/
def initBindingsGo (anim_names : List String) (kI : Nat) : List String → List Nat
  | [] => []
  | d :: ds =>
    (match pyIndex anim_names d with
     | some anim_idx => anim_idx
     | none => kI) :: initBindingsGo anim_names (kI + 1) ds

/-- routes.py lines 161-170: the default key→animation bindings. -/
def initBindings (anim_names : List String) : List Nat :=
  initBindingsGo anim_names 0 default_anims_for_keys

/-- routes.py lines 119-173: `__init__`, given the actuator's
`anim_list` (`all_anim_names`). -/
def mkRCState (all_anim_names : List String) : RCState :=
  let anim_names := computeAnimNames all_anim_names
  { drive_forwards := false
    drive_back := false
    turn_left := false
    turn_right := false
    lift_up := false
    lift_down := false
    head_up := false
    head_down := false
    go_fast := false
    go_slow := false
    is_mouse_look_enabled := false
    mouse_dir := 0
    anim_names := anim_names
    anim_index_for_key := initBindings anim_names
    action_queue := []
    text_to_say := "Hi I'm Vector" }

/-- One external event reaching the session, as delivered by the HTTP
boundary (routes.py lines 630-716). -/
inductive Op where
  | key (key_code : Nat) (shift alt down : Bool)
  | mouse (x y head_angle_deg : ℚ)
  | setMouseLook (enabled : Bool)
  | setAnim (slot : Int) (idx : Nat)
  | setText (t : String)
  | tick (completed : Bool)

/-- The state after one event.  Where the Python handler raises
(`handle_key` on a bad animation lookup, `set_anim` out of range), the state
kept by the server is the one at the point of the raise: for `handle_key` all
intent mutations precede the failing enqueue, for `set_anim` the failing
assignment changes nothing. -/
def applyOp (s : RCState) : Op → RCState
  | Op.key kc sh al dn =>
    (handle_key_enq (handle_key_pre s kc sh al dn).1 kc dn).getD (handle_key_pre s kc sh al dn).1
  | Op.mouse x y ha => (handle_mouse s x y ha).1
  | Op.setMouseLook e => (set_mouse_look_enabled s e).1
  | Op.setAnim slot idx => (set_anim s slot idx).getD s
  | Op.setText t => { s with text_to_say := t }
  | Op.tick c => (update s c).1

/-- The state after a sequence of events. -/
def applyOps (s : RCState) (ops : List Op) : RCState :=
  ops.foldl applyOp s

/-- The `keySlotBindings[i] ∈ [0, |animationCatalog|)` invariant of the spec,
together with the fixed arity of the binding array. -/
def bindingsValid (s : RCState) : Prop :=
  s.anim_index_for_key.length = 10 ∧
    ∀ j ∈ s.anim_index_for_key, j < s.anim_names.length

instance (s : RCState) : Decidable (bindingsValid s) := by
  unfold bindingsValid; infer_instance

/-- An event that keeps to the boundary contract assumed by `set_anim`
(dropdown indices are inside the catalog); `n` is the catalog size. -/
def OpWithinCatalog (n : Nat) : Op → Prop
  | Op.setAnim _ idx => idx < n
  | _ => True

/-- A 12-name catalog for concrete evaluations; none of the configured default
animation names occur in it, so every binding falls back to its slot index. -/
def demoAnims : List String :=
  ["a00", "a01", "a02", "a03", "a04", "a05", "a06", "a07", "a08", "a09", "a10", "a11"]

/-- A session freshly created on the demo catalog. -/
def demoState : RCState := mkRCState demoAnims

/-! ## Queue lemmas -/

/-- The queue transformation performed by one `queue_action` call. -/
def queue_step (q : List Action) (a : Action) : List Action :=
  (if 10 < q.length then q.tail else q) ++ [a]

lemma queue_action_queue (s : RCState) (a : Action) :
    (queue_action s a).action_queue = queue_step s.action_queue a := rfl

lemma queueAll_queue (acts : List Action) (s : RCState) :
    (queueAll s acts).action_queue = acts.foldl queue_step s.action_queue := by
  induction acts generalizing s with
  | nil => rfl
  | cons a acts ih =>
    show (queueAll (queue_action s a) acts).action_queue = _
    rw [ih, queue_action_queue]
    rfl

lemma foldl_queue_step_drop (acts : List Action) (q : List Action) (h : q.length ≤ 11) :
    acts.foldl queue_step q = (q ++ acts).drop (q.length + acts.length - 11) := by
  induction acts generalizing q with
  | nil =>
    simp [Nat.sub_eq_zero_of_le h]
  | cons a acts ih =>
    by_cases h10 : 10 < q.length
    · have hq : q.length = 11 := by omega
      obtain ⟨b, t, rfl⟩ : ∃ b t, q = b :: t := by
        cases q with
        | nil => simp at hq
        | cons b t => exact ⟨b, t, rfl⟩
      have ht : t.length = 10 := by simpa using hq
      show acts.foldl queue_step (queue_step (b :: t) a) = _
      have hstep : queue_step (b :: t) a = t ++ [a] := by
        simp [queue_step, ht]
      rw [hstep, ih (t ++ [a]) (by simp [ht])]
      have harith1 : (t ++ [a]).length + acts.length - 11 = acts.length := by
        simp [ht]
      have harith2 : (b :: t).length + (a :: acts).length - 11 = acts.length + 1 := by
        simp only [List.length_cons, ht]
        omega
      rw [harith1, harith2]
      show (t ++ [a] ++ acts).drop acts.length = _
      rw [List.append_assoc]
      simp [List.drop_succ_cons]
    · have hle : q.length ≤ 10 := by omega
      show acts.foldl queue_step (queue_step q a) = _
      have hstep : queue_step q a = q ++ [a] := by
        simp [queue_step, h10]
      rw [hstep, ih (q ++ [a]) (by simp; omega)]
      have harith : (q ++ [a]).length + acts.length - 11 =
          q.length + (a :: acts).length - 11 := by
        simp; omega
      rw [harith, List.append_assoc]
      rfl

/-! ## C1: speed tier selection -/

/-- C1 counterexample: with both modifiers held (`goFast` and `goSlow` both
set), `pick_speed` returns the MID speed (75 of the drive triple), not the
slow speed the claim asserts: Python's `elif self.go_slow` branch is skipped
once `self.go_fast` is truthy. -/
theorem C1_counterexample :
    pick_speed { demoState with go_fast := true, go_slow := true } 150 75 50 = 75 ∧
    (75 : ℚ) ≠ 50 := by
  exact ⟨rfl, by norm_num⟩

/-- C1 (amended): exhaustively over the four modifier combinations,
`pick_speed` returns fast for goFast alone, slow for goSlow alone, and mid
both when neither modifier is set and when both are set. -/
theorem C1_pick_speed (s : RCState) (fast mid slow : ℚ) :
    (s.go_fast = true → s.go_slow = false → pick_speed s fast mid slow = fast) ∧
    (s.go_fast = false → s.go_slow = true → pick_speed s fast mid slow = slow) ∧
    (s.go_fast = true → s.go_slow = true → pick_speed s fast mid slow = mid) ∧
    (s.go_fast = false → s.go_slow = false → pick_speed s fast mid slow = mid) := by
  refine ⟨?_, ?_, ?_, ?_⟩ <;> intro h1 h2 <;> simp [pick_speed, h1, h2]

/-- Witness for `C1_pick_speed` at a concrete state and the drive triple. -/
theorem C1_pick_speed_witness :
    ({ demoState with go_fast := true, go_slow := false } : RCState).go_fast = true ∧
    ({ demoState with go_fast := true, go_slow := false } : RCState).go_slow = false ∧
    pick_speed { demoState with go_fast := true, go_slow := false } 150 75 50 = 150 :=
  ⟨rfl, rfl,
    (C1_pick_speed { demoState with go_fast := true, go_slow := false } 150 75 50).1 rfl rfl⟩

/-! ## C2: queue capacity and FIFO eviction -/

/-- Twelve pairwise distinct actions for the capacity scenario. -/
def twelveActs : List Action :=
  (List.range 12).map (fun i => Action.speak (toString i))

/-- C2: starting from an empty queue no sequence of enqueues pushes the length
past 11; a single enqueue evicts the head exactly when the length before
appending exceeds 10 and appends at the tail; and enqueuing 12 actions from
empty retains exactly the last 11 in FIFO order (the first is evicted). -/
theorem C2_queue_capacity (s s0 : RCState) (a : Action) (acts : List Action)
    (h : s.action_queue.length ≤ 11) (h0 : s0.action_queue = []) :
    (queueAll s0 acts).action_queue.length ≤ 11 ∧
    (10 < s.action_queue.length →
      (queue_action s a).action_queue = s.action_queue.tail ++ [a]) ∧
    (s.action_queue.length ≤ 10 →
      (queue_action s a).action_queue = s.action_queue ++ [a]) ∧
    (acts.length = 12 → (queueAll s0 acts).action_queue = acts.tail) := by
  refine ⟨?_, ?_, ?_, ?_⟩
  · rw [queueAll_queue, foldl_queue_step_drop _ _ (by rw [h0]; simp), h0]
    simp [List.length_drop]
    omega
  · intro hgt
    rw [queue_action_queue]
    simp [queue_step, hgt]
  · intro hle
    rw [queue_action_queue]
    simp [queue_step]
    omega
  · intro h12
    rw [queueAll_queue, foldl_queue_step_drop _ _ (by rw [h0]; simp), h0, h12]
    simp [List.drop_one]

/-- Witness for `C2_queue_capacity`: a fresh session and 12 concrete actions. -/
theorem C2_queue_capacity_witness :
    demoState.action_queue.length ≤ 11 ∧ twelveActs.length = 12 ∧
    (queueAll demoState twelveActs).action_queue.length ≤ 11 ∧
    (queue_action demoState (Action.speak "x")).action_queue =
      demoState.action_queue ++ [Action.speak "x"] ∧
    (queueAll demoState twelveActs).action_queue = twelveActs.tail :=
  ⟨by decide, by decide,
   (C2_queue_capacity demoState demoState (Action.speak "x") twelveActs
      (by decide) rfl).1,
   (C2_queue_capacity demoState demoState (Action.speak "x") twelveActs
      (by decide) rfl).2.2.1 (by decide),
   (C2_queue_capacity demoState demoState (Action.speak "x") twelveActs
      (by decide) rfl).2.2.2 (by decide)⟩

/-! ## C3: the drain step -/

/-- C3: `update` on an empty queue is a no-op issuing nothing; on a non-empty
queue it dispatches the head to the actuator, pops the head exactly when the
poll reports completion and leaves the whole state untouched otherwise; a
single queued action polled false, false, false, true keeps length 1 through
the first three ticks and empties on the fourth. -/
theorem C3_drain_step (s : RCState) (c : Bool) (a : Action) (rest : List Action) :
    (s.action_queue = [] → update s c = (s, [])) ∧
    (s.action_queue = a :: rest →
      (update s c).2 = [dispatch_action a] ∧
      (update s true).1 = { s with action_queue := rest } ∧
      (update s false).1 = s) ∧
    (s.action_queue = [a] →
      (drainN s [false]).action_queue.length = 1 ∧
      (drainN s [false, false]).action_queue.length = 1 ∧
      (drainN s [false, false, false]).action_queue.length = 1 ∧
      (drainN s [false, false, false, true]).action_queue.length = 0) := by
  refine ⟨?_, ?_, ?_⟩
  · intro h
    simp [update, h]
  · intro h
    refine ⟨?_, ?_, ?_⟩
    · simp [update, h]
      cases c <;> simp
    · simp [update, h]
    · simp [update, h]
  · intro h
    simp [drainN, update, h]

/-- Witness for `C3_drain_step` on a session holding one queued speak action. -/
theorem C3_drain_step_witness :
    ({ demoState with action_queue := [Action.speak "hi"] } : RCState).action_queue =
      [Action.speak "hi"] ∧
    (update { demoState with action_queue := [Action.speak "hi"] } false).2 =
      [dispatch_action (Action.speak "hi")] ∧
    (drainN { demoState with action_queue := [Action.speak "hi"] }
      [false, false, false]).action_queue.length = 1 ∧
    (drainN { demoState with action_queue := [Action.speak "hi"] }
      [false, false, false, true]).action_queue.length = 0 :=
  ⟨rfl,
   ((C3_drain_step { demoState with action_queue := [Action.speak "hi"] } false
      (Action.speak "hi") []).2.1 rfl).1,
   ((C3_drain_step { demoState with action_queue := [Action.speak "hi"] } false
      (Action.speak "hi") []).2.2 rfl).2.2.1,
   ((C3_drain_step { demoState with action_queue := [Action.speak "hi"] } false
      (Action.speak "hi") []).2.2 rfl).2.2.2⟩

/-! ## C5: the wheel-motor command formula -/

/-- C5: every drive/turn recompute issues the single wheel-motor command with
left speed `driveDir*forwardSpeed + turnSpeed*turnDir`, right speed
`driveDir*forwardSpeed - turnSpeed*turnDir`, where `driveDir` is
forward-minus-back, `turnDir` is right-minus-left plus the mouse aim (negated
when reversing), `forwardSpeed = pick(150,75,50)`, `turnSpeed =
pick(100,50,30)`, and both acceleration parameters are 4× the wheel speeds. -/
theorem C5_wheel_command (s : RCState) :
    update_mouse_driving_cmd s =
      (let driveDir : ℚ := bnum s.drive_forwards - bnum s.drive_back
       let turnDir : ℚ :=
         if driveDir < 0 then -((bnum s.turn_right - bnum s.turn_left) + s.mouse_dir)
         else (bnum s.turn_right - bnum s.turn_left) + s.mouse_dir
       let forwardSpeed := pick_speed s 150 75 50
       let turnSpeed := pick_speed s 100 50 30
       Cmd.setWheelMotors
         (driveDir * forwardSpeed + turnSpeed * turnDir)
         (driveDir * forwardSpeed - turnSpeed * turnDir)
         ((driveDir * forwardSpeed + turnSpeed * turnDir) * 4)
         ((driveDir * forwardSpeed - turnSpeed * turnDir) * 4)) := rfl

/-! ## C6: disabling mouse-look -/

/-- C6: disabling mouse-look on a session where it was enabled zeroes
`mouse_dir` and issues exactly one wheel-motor recompute followed by exactly
one head recompute; enabling, or disabling when already disabled, issues
nothing; and a second disable leaves the state of the first disable
unchanged. -/
theorem C6_mouse_look_disable (s : RCState) :
    (s.is_mouse_look_enabled = true →
      (set_mouse_look_enabled s false).1.mouse_dir = 0 ∧
      (set_mouse_look_enabled s false).2 =
        [update_mouse_driving_cmd (set_mouse_look_enabled s false).1,
         Cmd.setHeadMotor
           ((bnum s.head_up - bnum s.head_down) * pick_speed s 2 1 (1/2))]) ∧
    ((set_mouse_look_enabled s true).2 = []) ∧
    (s.is_mouse_look_enabled = false → (set_mouse_look_enabled s false).2 = []) ∧
    ((set_mouse_look_enabled (set_mouse_look_enabled s false).1 false).1 =
      (set_mouse_look_enabled s false).1) := by
  refine ⟨?_, ?_, ?_, ?_⟩
  · intro h
    constructor
    · simp [set_mouse_look_enabled, h]
    · simp only [set_mouse_look_enabled, update_head_cmds, h]
      rfl
  · simp [set_mouse_look_enabled]
  · intro h
    simp [set_mouse_look_enabled, h]
  · cases h : s.is_mouse_look_enabled <;> simp [set_mouse_look_enabled, h]

/-- Witness for `C6_mouse_look_disable` on a session with mouse-look on. -/
theorem C6_mouse_look_disable_witness :
    ({ demoState with is_mouse_look_enabled := true, mouse_dir := 1 } :
        RCState).is_mouse_look_enabled = true ∧
    (set_mouse_look_enabled
        { demoState with is_mouse_look_enabled := true, mouse_dir := 1 }
        false).1.mouse_dir = 0 ∧
    (set_mouse_look_enabled
        { demoState with is_mouse_look_enabled := true, mouse_dir := 1 }
        false).2 =
      [update_mouse_driving_cmd
        (set_mouse_look_enabled
          { demoState with is_mouse_look_enabled := true, mouse_dir := 1 }
          false).1,
       Cmd.setHeadMotor
         ((bnum demoState.head_up - bnum demoState.head_down) *
           pick_speed demoState 2 1 (1/2))] :=
  ⟨rfl,
   ((C6_mouse_look_disable
      { demoState with is_mouse_look_enabled := true, mouse_dir := 1 }).1 rfl).1,
   ((C6_mouse_look_disable
      { demoState with is_mouse_look_enabled := true, mouse_dir := 1 }).1 rfl).2⟩

/-! ## C7: out-of-range animation-binding slots -/

/-- C7 counterexample: from a freshly created session, `set_anim` with slot 10
raises (an `IndexError` propagates: the result is `none`, not a no-op), and
`set_anim` with slot -1 silently changes session state (Python signed
indexing writes slot 9) — refuting "ignored: no state change and no error". -/
theorem C7_counterexample :
    set_anim demoState 10 0 = none ∧
    (set_anim demoState (-1) 7).map (fun s => s.anim_index_for_key) =
      some [0, 1, 2, 3, 4, 5, 6, 7, 8, 7] ∧
    demoState.anim_index_for_key = [0, 1, 2, 3, 4, 5, 6, 7, 8, 9] := by
  refine ⟨rfl, by decide, by decide⟩

/-- C7 (amended): `set_anim` follows Python list-assignment semantics instead
of ignoring bad slots: slots 0..9 and -10..-1 (the latter addressing slot+10)
update the binding, every other slot raises an `IndexError` that propagates
out (leaving the state unchanged only because the assignment never ran). -/
theorem C7_set_anim_semantics (s : RCState) (slot : Int) (idx : Nat)
    (hlen : s.anim_index_for_key.length = 10) :
    (10 ≤ slot ∨ slot < -10 → set_anim s slot idx = none) ∧
    (0 ≤ slot → slot < 10 →
      set_anim s slot idx =
        some { s with anim_index_for_key := s.anim_index_for_key.set slot.toNat idx }) ∧
    (-10 ≤ slot → slot < 0 →
      set_anim s slot idx =
        some { s with
          anim_index_for_key := s.anim_index_for_key.set (slot + 10).toNat idx }) := by
  refine ⟨?_, ?_, ?_⟩
  · intro h
    unfold set_anim pyListSet
    rw [hlen]
    rcases h with h | h
    · rw [if_pos (by omega), if_neg (by push_cast; omega)]
    · rw [if_neg (by omega), if_neg (by push_cast; omega)]
  · intro h1 h2
    unfold set_anim pyListSet
    rw [hlen, if_pos h1, if_pos (by push_cast; omega)]
  · intro h1 h2
    unfold set_anim pyListSet
    rw [hlen, if_neg (by omega), if_pos (by push_cast; omega)]
    have : ((10 : Nat) : Int) + slot = slot + 10 := by push_cast; omega
    rw [this]

/-- Witness for `C7_set_anim_semantics`: slot 10 on a fresh session raises. -/
theorem C7_set_anim_semantics_witness :
    demoState.anim_index_for_key.length = 10 ∧
    set_anim demoState 10 3 = none :=
  ⟨by decide,
   (C7_set_anim_semantics demoState 10 3 (by decide)).1 (Or.inl (by norm_num))⟩

/-! ## C9: rendering the queue -/

/-- Concatenation of a list of rendered lines. -/
def concatStrings : List String → String
  | [] => ""
  | s :: rest => s ++ concatStrings rest

lemma aqtt_go_eq (q : List Action) (out : String) (i : Nat) :
    aqtt_go out i q =
      out ++ concatStrings ((List.enumFrom i q).map
        (fun p => "[" ++ toString p.1 ++ "] " ++ action_to_text p.2)) := by
  induction q generalizing out i with
  | nil => simp [aqtt_go, concatStrings]
  | cons a q ih =>
    rw [aqtt_go, ih, List.enumFrom_cons]
    simp [concatStrings, String.append_assoc]

lemma updateVector_go_eq (q : List Action) (out : String) (i : Nat) :
    updateVector_go out i q =
      out ++ concatStrings ((List.enumFrom i q).map
        (fun p => toString p.1 ++ ": " ++ action_to_text p.2 ++ "<br>")) := by
  induction q generalizing out i with
  | nil => simp [updateVector_go, concatStrings]
  | cons a q ih =>
    rw [updateVector_go, ih, List.enumFrom_cons]
    simp [concatStrings, String.append_assoc]

/-- C9 counterexample: `action_queue_to_text` numbers the listing from 0, not
from 1 as the claim states — on a one-action queue it renders `[0] ...`. -/
theorem C9_counterexample :
    action_queue_to_text [Action.speak "hi"] = "[0] say_text( hi )" ∧
    action_queue_to_text [Action.speak "hi"] ≠ "[1] say_text( hi )" := by
  refine ⟨rfl, by decide⟩

/-- C9 (amended): `action_queue_to_text` is a pure rendering of the pending
actions in queue order numbered from 0 (`[i] kind( arg )`); the 1-indexed
listing of the claim is produced by the separate loop in the `/updateVector`
handler, also a pure rendering of the queue. -/
theorem C9_render_listing (q : List Action) :
    action_queue_to_text q =
      concatStrings ((List.enumFrom 0 q).map
        (fun p => "[" ++ toString p.1 ++ "] " ++ action_to_text p.2)) ∧
    updateVector_text q =
      "Action Queue:<br>" ++ concatStrings ((List.enumFrom 1 q).map
        (fun p => toString p.1 ++ ": " ++ action_to_text p.2 ++ "<br>")) ++ "\n" := by
  constructor
  · rw [action_queue_to_text, aqtt_go_eq]
    simp
  · rw [updateVector_text, updateVector_go_eq]
    simp [String.empty_append]

/-! ## Field-preservation lemmas for the key handler -/

@[simp] lemma update_drive_state_mouse_dir (s : RCState) (kc : Nat) (dn sc : Bool) :
    (update_drive_state s kc dn sc).1.mouse_dir = s.mouse_dir := by
  unfold update_drive_state; split_ifs <;> rfl

@[simp] lemma update_drive_state_anim_names (s : RCState) (kc : Nat) (dn sc : Bool) :
    (update_drive_state s kc dn sc).1.anim_names = s.anim_names := by
  unfold update_drive_state; split_ifs <;> rfl

@[simp] lemma update_drive_state_bindings (s : RCState) (kc : Nat) (dn sc : Bool) :
    (update_drive_state s kc dn sc).1.anim_index_for_key = s.anim_index_for_key := by
  unfold update_drive_state; split_ifs <;> rfl

@[simp] lemma update_drive_state_queue (s : RCState) (kc : Nat) (dn sc : Bool) :
    (update_drive_state s kc dn sc).1.action_queue = s.action_queue := by
  unfold update_drive_state; split_ifs <;> rfl

@[simp] lemma update_drive_state_text (s : RCState) (kc : Nat) (dn sc : Bool) :
    (update_drive_state s kc dn sc).1.text_to_say = s.text_to_say := by
  unfold update_drive_state; split_ifs <;> rfl

@[simp] lemma update_lift_state_mouse_dir (s : RCState) (kc : Nat) (dn sc : Bool) :
    (update_lift_state s kc dn sc).1.mouse_dir = s.mouse_dir := by
  unfold update_lift_state; split_ifs <;> rfl

@[simp] lemma update_lift_state_anim_names (s : RCState) (kc : Nat) (dn sc : Bool) :
    (update_lift_state s kc dn sc).1.anim_names = s.anim_names := by
  unfold update_lift_state; split_ifs <;> rfl

@[simp] lemma update_lift_state_bindings (s : RCState) (kc : Nat) (dn sc : Bool) :
    (update_lift_state s kc dn sc).1.anim_index_for_key = s.anim_index_for_key := by
  unfold update_lift_state; split_ifs <;> rfl

@[simp] lemma update_lift_state_queue (s : RCState) (kc : Nat) (dn sc : Bool) :
    (update_lift_state s kc dn sc).1.action_queue = s.action_queue := by
  unfold update_lift_state; split_ifs <;> rfl

@[simp] lemma update_lift_state_text (s : RCState) (kc : Nat) (dn sc : Bool) :
    (update_lift_state s kc dn sc).1.text_to_say = s.text_to_say := by
  unfold update_lift_state; split_ifs <;> rfl

@[simp] lemma update_head_state_mouse_dir (s : RCState) (kc : Nat) (dn sc : Bool) :
    (update_head_state s kc dn sc).1.mouse_dir = s.mouse_dir := by
  unfold update_head_state; split_ifs <;> rfl

@[simp] lemma update_head_state_anim_names (s : RCState) (kc : Nat) (dn sc : Bool) :
    (update_head_state s kc dn sc).1.anim_names = s.anim_names := by
  unfold update_head_state; split_ifs <;> rfl

@[simp] lemma update_head_state_bindings (s : RCState) (kc : Nat) (dn sc : Bool) :
    (update_head_state s kc dn sc).1.anim_index_for_key = s.anim_index_for_key := by
  unfold update_head_state; split_ifs <;> rfl

@[simp] lemma update_head_state_queue (s : RCState) (kc : Nat) (dn sc : Bool) :
    (update_head_state s kc dn sc).1.action_queue = s.action_queue := by
  unfold update_head_state; split_ifs <;> rfl

@[simp] lemma update_head_state_text (s : RCState) (kc : Nat) (dn sc : Bool) :
    (update_head_state s kc dn sc).1.text_to_say = s.text_to_say := by
  unfold update_head_state; split_ifs <;> rfl

@[simp] lemma handle_key_pre_mouse_dir (s : RCState) (kc : Nat) (sh al dn : Bool) :
    (handle_key_pre s kc sh al dn).1.mouse_dir = s.mouse_dir := by
  simp [handle_key_pre]

@[simp] lemma handle_key_pre_anim_names (s : RCState) (kc : Nat) (sh al dn : Bool) :
    (handle_key_pre s kc sh al dn).1.anim_names = s.anim_names := by
  simp [handle_key_pre]

@[simp] lemma handle_key_pre_bindings (s : RCState) (kc : Nat) (sh al dn : Bool) :
    (handle_key_pre s kc sh al dn).1.anim_index_for_key = s.anim_index_for_key := by
  simp [handle_key_pre]

@[simp] lemma handle_key_pre_queue (s : RCState) (kc : Nat) (sh al dn : Bool) :
    (handle_key_pre s kc sh al dn).1.action_queue = s.action_queue := by
  simp [handle_key_pre]

@[simp] lemma handle_key_pre_text (s : RCState) (kc : Nat) (sh al dn : Bool) :
    (handle_key_pre s kc sh al dn).1.text_to_say = s.text_to_say := by
  simp [handle_key_pre]

@[simp] lemma queue_action_mouse_dir (s : RCState) (a : Action) :
    (queue_action s a).mouse_dir = s.mouse_dir := rfl

@[simp] lemma queue_action_anim_names (s : RCState) (a : Action) :
    (queue_action s a).anim_names = s.anim_names := rfl

@[simp] lemma queue_action_bindings (s : RCState) (a : Action) :
    (queue_action s a).anim_index_for_key = s.anim_index_for_key := rfl

@[simp] lemma queue_action_text (s : RCState) (a : Action) :
    (queue_action s a).text_to_say = s.text_to_say := rfl

/-! ## Case lemmas for the key-release enqueue block -/

lemma handle_key_enq_digit (s : RCState) (kc j : Nat) (name : String)
    (h1 : 48 ≤ kc) (h2 : kc ≤ 57)
    (hj : s.anim_index_for_key[kc - 48]? = some j)
    (hname : s.anim_names[j]? = some name) :
    handle_key_enq s kc false = some (queue_action s (Action.playAnimation name)) := by
  simp [handle_key_enq, key_code_to_anim_name, hj, hname, h1, h2]

lemma handle_key_enq_space (s : RCState) :
    handle_key_enq s 32 false = some (queue_action s (Action.speak s.text_to_say)) := rfl

lemma handle_key_enq_other (s : RCState) (kc : Nat)
    (hd : ¬ (48 ≤ kc ∧ kc ≤ 57)) (hs : kc ≠ 32) :
    handle_key_enq s kc false = some s := by
  simp [handle_key_enq, hd, hs]

lemma handle_key_enq_down (s : RCState) (kc : Nat) :
    handle_key_enq s kc true = some s := rfl

lemma handle_key_enq_fields (s : RCState) (kc : Nat) (dn : Bool) (s2 : RCState)
    (h : handle_key_enq s kc dn = some s2) :
    s2.mouse_dir = s.mouse_dir ∧ s2.anim_names = s.anim_names ∧
    s2.anim_index_for_key = s.anim_index_for_key ∧
    s2.text_to_say = s.text_to_say := by
  cases dn with
  | true =>
    rw [handle_key_enq_down] at h
    obtain rfl := Option.some.inj h
    exact ⟨rfl, rfl, rfl, rfl⟩
  | false =>
    by_cases h1 : 48 ≤ kc ∧ kc ≤ 57
    · unfold handle_key_enq at h
      simp only [Bool.not_false, if_true, if_pos h1] at h
      cases hm : key_code_to_anim_name s kc with
      | none => rw [hm] at h; simp at h
      | some name =>
        rw [hm] at h
        obtain rfl := Option.some.inj h
        exact ⟨rfl, rfl, rfl, rfl⟩
    · by_cases h2 : kc = 32
      · subst h2
        rw [handle_key_enq_space] at h
        obtain rfl := Option.some.inj h
        exact ⟨rfl, rfl, rfl, rfl⟩
      · rw [handle_key_enq_other s kc h1 h2] at h
        obtain rfl := Option.some.inj h
        exact ⟨rfl, rfl, rfl, rfl⟩

lemma handle_key_eq (s : RCState) (kc : Nat) (sh al dn : Bool) (s2 : RCState)
    (h : handle_key_enq (handle_key_pre s kc sh al dn).1 kc dn = some s2) :
    handle_key s kc sh al dn = some (s2, (handle_key_pre s kc sh al dn).2) := by
  unfold handle_key
  rw [h]

/-! ## C4: key-up triggers -/

/-- C4: on key-up, a digit key whose slot binds catalog entry `name` enqueues
exactly one PlayAnimation action carrying `name`, and the space key enqueues
exactly one Speak action carrying the current `text_to_say` — whose payload a
later utterance-text change does not alter; key-up of any other key, and
key-down of any key, enqueue nothing. -/
theorem C4_key_release_enqueue (s : RCState) (sh al : Bool) (kc j : Nat) (name : String)
    (hq : s.action_queue.length ≤ 10) :
    (48 ≤ kc → kc ≤ 57 →
      s.anim_index_for_key[kc - 48]? = some j →
      s.anim_names[j]? = some name →
      ∃ s2 cmds, handle_key s kc sh al false = some (s2, cmds) ∧
        s2.action_queue = s.action_queue ++ [Action.playAnimation name]) ∧
    (∃ s2 cmds, handle_key s 32 sh al false = some (s2, cmds) ∧
      s2.action_queue = s.action_queue ++ [Action.speak s.text_to_say] ∧
      ∀ t, (applyOp s2 (Op.setText t)).action_queue =
        s.action_queue ++ [Action.speak s.text_to_say]) ∧
    (¬ (48 ≤ kc ∧ kc ≤ 57) → kc ≠ 32 →
      ∀ s2 cmds, handle_key s kc sh al false = some (s2, cmds) →
        s2.action_queue = s.action_queue) ∧
    (∀ s2 cmds, handle_key s kc sh al true = some (s2, cmds) →
      s2.action_queue = s.action_queue) := by
  refine ⟨?_, ?_, ?_, ?_⟩
  · intro h1 h2 hj hname
    have hj' : (handle_key_pre s kc sh al false).1.anim_index_for_key[kc - 48]? = some j := by
      rw [handle_key_pre_bindings]; exact hj
    have hname' : (handle_key_pre s kc sh al false).1.anim_names[j]? = some name := by
      rw [handle_key_pre_anim_names]; exact hname
    have henq := handle_key_enq_digit _ kc j name h1 h2 hj' hname'
    refine ⟨_, _, handle_key_eq s kc sh al false _ henq, ?_⟩
    rw [queue_action_queue, handle_key_pre_queue]
    simp [queue_step]
    omega
  · have henq := handle_key_enq_space (handle_key_pre s 32 sh al false).1
    rw [handle_key_pre_text] at henq
    refine ⟨_, _, handle_key_eq s 32 sh al false _ henq, ?_, ?_⟩
    · rw [queue_action_queue, handle_key_pre_queue]
      simp [queue_step]
      omega
    · intro t
      show (queue_action (handle_key_pre s 32 sh al false).1
        (Action.speak s.text_to_say)).action_queue = _
      rw [queue_action_queue, handle_key_pre_queue]
      simp [queue_step]
      omega
  · intro hd hs s2 cmds h
    have henq := handle_key_enq_other (handle_key_pre s kc sh al false).1 kc hd hs
    rw [handle_key_eq s kc sh al false _ henq] at h
    obtain ⟨rfl, -⟩ := Prod.mk.injEq .. ▸ Prod.mk.inj (Option.some.inj h)
    rw [handle_key_pre_queue]
  · intro s2 cmds h
    have henq := handle_key_enq_down (handle_key_pre s kc sh al true).1 kc
    rw [handle_key_eq s kc sh al true _ henq] at h
    obtain ⟨rfl, -⟩ := Prod.mk.injEq .. ▸ Prod.mk.inj (Option.some.inj h)
    rw [handle_key_pre_queue]

/-- Witness for `C4_key_release_enqueue`: key-up of digit key 5 (code 53) on a
fresh session, whose slot 5 binds catalog entry 5 (`"a05"`). -/
theorem C4_key_release_enqueue_witness :
    demoState.action_queue.length ≤ 10 ∧
    (48 ≤ 53 ∧ 53 ≤ 57) ∧
    demoState.anim_index_for_key[53 - 48]? = some 5 ∧
    demoState.anim_names[5]? = some "a05" ∧
    (∃ s2 cmds, handle_key demoState 53 false false false = some (s2, cmds) ∧
      s2.action_queue = demoState.action_queue ++ [Action.playAnimation "a05"]) ∧
    (∃ s2 cmds, handle_key demoState 32 false false false = some (s2, cmds) ∧
      s2.action_queue = demoState.action_queue ++ [Action.speak demoState.text_to_say] ∧
      ∀ t, (applyOp s2 (Op.setText t)).action_queue =
        demoState.action_queue ++ [Action.speak demoState.text_to_say]) :=
  ⟨by decide, by decide, by decide, by decide,
   (C4_key_release_enqueue demoState false false 53 5 "a05" (by decide)).1
     (by decide) (by decide) (by decide) (by decide),
   (C4_key_release_enqueue demoState false false 53 5 "a05" (by decide)).2.1⟩

/-! ## C8: validity of the key→animation bindings -/

lemma pyIndex_lt_length (l : List String) (x : String) :
    ∀ i, pyIndex l x = some i → i < l.length := by
  induction l with
  | nil => intro i h; exact Option.noConfusion h
  | cons y ys ih =>
    intro i h
    unfold pyIndex at h
    split_ifs at h
    · obtain rfl := Option.some.inj h
      simp
    · cases hm : pyIndex ys x with
      | none => rw [hm] at h; simp at h
      | some v =>
        rw [hm] at h
        have hi : some (v + 1) = some i := h
        obtain rfl := Option.some.inj hi
        have := ih v hm
        simp only [List.length_cons]
        omega

lemma initBindingsGo_length (names : List String) (k : Nat) :
    ∀ ds : List String, (initBindingsGo names k ds).length = ds.length := by
  intro ds
  induction ds generalizing k with
  | nil => rfl
  | cons d ds ih => simp [initBindingsGo, ih]

lemma initBindingsGo_mem (names : List String) (ds : List String) :
    ∀ (k j : Nat), j ∈ initBindingsGo names k ds →
      j < names.length ∨ j < k + ds.length := by
  induction ds with
  | nil => intro k j hj; exact absurd hj (List.not_mem_nil j)
  | cons d ds ih =>
    intro k j hj
    rw [initBindingsGo] at hj
    rcases List.mem_cons.mp hj with h | h
    · cases hm : pyIndex names d with
      | some v =>
        rw [hm] at h
        left
        rw [h]
        exact pyIndex_lt_length names d v hm
      | none =>
        rw [hm] at h
        right
        rw [h]
        exact (by omega : k < k + (ds.length + 1))
    · rcases ih (k + 1) j h with h' | h'
      · exact Or.inl h'
      · right
        simp only [List.length_cons]
        omega

@[simp] lemma mkRCState_anim_names (all_names : List String) :
    (mkRCState all_names).anim_names = computeAnimNames all_names := rfl

@[simp] lemma mkRCState_bindings (all_names : List String) :
    (mkRCState all_names).anim_index_for_key = initBindings (computeAnimNames all_names) := rfl

@[simp] lemma mkRCState_mouse_dir (all_names : List String) :
    (mkRCState all_names).mouse_dir = 0 := rfl

lemma mkRCState_valid (all_names : List String)
    (h10 : 10 ≤ (computeAnimNames all_names).length) :
    bindingsValid (mkRCState all_names) := by
  constructor
  · rw [mkRCState_bindings]
    exact initBindingsGo_length _ _ _
  · intro j hj
    rw [mkRCState_bindings] at hj
    rcases initBindingsGo_mem _ _ 0 j hj with h | h
    · simpa using h
    · rw [mkRCState_anim_names]
      have hd : default_anims_for_keys.length = 10 := rfl
      rw [hd] at h
      omega

lemma pyListSet_some (l : List Nat) (i : Int) (v : Nat) (l2 : List Nat)
    (h : pyListSet l i v = some l2) : ∃ m : Nat, l2 = l.set m v := by
  unfold pyListSet at h
  split_ifs at h
  · exact ⟨_, (Option.some.inj h).symm⟩
  · exact ⟨_, (Option.some.inj h).symm⟩

lemma applyOp_anim_names (s : RCState) (op : Op) :
    (applyOp s op).anim_names = s.anim_names := by
  cases op with
  | key kc sh al dn =>
    show ((handle_key_enq (handle_key_pre s kc sh al dn).1 kc dn).getD
      (handle_key_pre s kc sh al dn).1).anim_names = s.anim_names
    cases hm : handle_key_enq (handle_key_pre s kc sh al dn).1 kc dn with
    | none => simp
    | some s2 =>
      have hf := (handle_key_enq_fields _ kc dn s2 hm).2.1
      simp [hf]
  | mouse x y ha =>
    show (handle_mouse s x y ha).1.anim_names = s.anim_names
    unfold handle_mouse
    split_ifs <;> rfl
  | setMouseLook e =>
    show (set_mouse_look_enabled s e).1.anim_names = s.anim_names
    cases e <;> cases h : s.is_mouse_look_enabled <;>
      simp [set_mouse_look_enabled, h]
  | setAnim slot idx =>
    show ((set_anim s slot idx).getD s).anim_names = s.anim_names
    unfold set_anim
    cases pyListSet s.anim_index_for_key slot idx <;> rfl
  | setText t => rfl
  | tick c =>
    show (update s c).1.anim_names = s.anim_names
    unfold update
    cases s.action_queue with
    | nil => rfl
    | cons a rest => cases c <;> rfl

lemma applyOp_bindings_untouched (s : RCState) (op : Op)
    (hne : ∀ slot idx, op = Op.setAnim slot idx → False) :
    (applyOp s op).anim_index_for_key = s.anim_index_for_key := by
  cases op with
  | key kc sh al dn =>
    show ((handle_key_enq (handle_key_pre s kc sh al dn).1 kc dn).getD
      (handle_key_pre s kc sh al dn).1).anim_index_for_key = s.anim_index_for_key
    cases hm : handle_key_enq (handle_key_pre s kc sh al dn).1 kc dn with
    | none => simp
    | some s2 =>
      have hf := (handle_key_enq_fields _ kc dn s2 hm).2.2.1
      simp [hf]
  | mouse x y ha =>
    show (handle_mouse s x y ha).1.anim_index_for_key = s.anim_index_for_key
    unfold handle_mouse
    split_ifs <;> rfl
  | setMouseLook e =>
    show (set_mouse_look_enabled s e).1.anim_index_for_key = s.anim_index_for_key
    cases e <;> cases h : s.is_mouse_look_enabled <;>
      simp [set_mouse_look_enabled, h]
  | setAnim slot idx => exact (hne slot idx rfl).elim
  | setText t => rfl
  | tick c =>
    show (update s c).1.anim_index_for_key = s.anim_index_for_key
    unfold update
    cases s.action_queue with
    | nil => rfl
    | cons a rest => cases c <;> rfl

lemma bindingsValid_of_untouched (s s2 : RCState)
    (hb : s2.anim_index_for_key = s.anim_index_for_key)
    (hn : s2.anim_names = s.anim_names)
    (hv : bindingsValid s) : bindingsValid s2 := by
  obtain ⟨hlen, hmem⟩ := hv
  refine ⟨by rw [hb]; exact hlen, ?_⟩
  intro j hj
  rw [hn]
  exact hmem j (by rwa [hb] at hj)

lemma applyOp_bindings_valid (s : RCState) (op : Op)
    (hv : bindingsValid s) (hop : OpWithinCatalog s.anim_names.length op) :
    bindingsValid (applyOp s op) := by
  have hnames := applyOp_anim_names s op
  cases op with
  | setAnim slot idx =>
    obtain ⟨hlen, hmem⟩ := hv
    cases hm : set_anim s slot idx with
    | none =>
      have happ : applyOp s (Op.setAnim slot idx) = s := by
        show (set_anim s slot idx).getD s = s
        rw [hm]
        rfl
      rw [happ]
      exact ⟨hlen, hmem⟩
    | some s2 =>
      have happ : applyOp s (Op.setAnim slot idx) = s2 := by
        show (set_anim s slot idx).getD s = s2
        rw [hm]
        rfl
      unfold set_anim at hm
      cases hps : pyListSet s.anim_index_for_key slot idx with
      | none => rw [hps] at hm; exact Option.noConfusion hm
      | some l2 =>
        rw [hps] at hm
        obtain rfl := Option.some.inj hm
        obtain ⟨m, rfl⟩ := pyListSet_some _ slot idx l2 hps
        rw [happ]
        constructor
        · show (s.anim_index_for_key.set m idx).length = 10
          rw [List.length_set]
          exact hlen
        · intro j hj
          show j < s.anim_names.length
          rcases List.mem_or_eq_of_mem_set hj with h | h
          · exact hmem j h
          · subst h
            exact hop
  | key kc sh al dn =>
    exact bindingsValid_of_untouched s _
      (applyOp_bindings_untouched s _ (fun _ _ h => Op.noConfusion h)) hnames hv
  | mouse x y ha =>
    exact bindingsValid_of_untouched s _
      (applyOp_bindings_untouched s _ (fun _ _ h => Op.noConfusion h)) hnames hv
  | setMouseLook e =>
    exact bindingsValid_of_untouched s _
      (applyOp_bindings_untouched s _ (fun _ _ h => Op.noConfusion h)) hnames hv
  | setText t =>
    exact bindingsValid_of_untouched s _
      (applyOp_bindings_untouched s _ (fun _ _ h => Op.noConfusion h)) hnames hv
  | tick c =>
    exact bindingsValid_of_untouched s _
      (applyOp_bindings_untouched s _ (fun _ _ h => Op.noConfusion h)) hnames hv

lemma applyOps_bindings_valid (ops : List Op) (n : Nat) :
    ∀ s : RCState, s.anim_names.length = n → bindingsValid s →
      (∀ op ∈ ops, OpWithinCatalog n op) →
      bindingsValid (applyOps s ops) := by
  induction ops with
  | nil => intro s _ hv _; exact hv
  | cons op ops ih =>
    intro s hn hv hops
    have h1 : bindingsValid (applyOp s op) :=
      applyOp_bindings_valid s op hv (by rw [hn]; exact hops op (List.mem_cons_self op ops))
    exact ih (applyOp s op) (by rw [applyOp_anim_names, hn]) h1
      (fun o ho => hops o (List.mem_cons_of_mem op ho))

/-- C8 counterexample: from a freshly created session over a 12-entry catalog,
a single `set_anim` call with the out-of-range catalog index 50 (reachable
from the boundary, which is not re-validated) leaves slot 0 bound to 50 ≥ 12 —
the invariant does not survive every operation sequence. -/
theorem C8_counterexample :
    ¬ bindingsValid (applyOps demoState [Op.setAnim 0 50]) := by
  decide

/-- C8 (amended): at creation every binding slot is a valid catalog index
(default names found by lookup, missing ones falling back to the slot's own
index) whenever the filtered catalog has at least 10 entries, and the
invariant is preserved by every operation sequence whose `set_anim` calls
carry in-range catalog indices; `set_anim` itself does not validate the
index, so only that boundary contract keeps the invariant. -/
theorem C8_binding_invariant (all_names : List String) (ops : List Op)
    (h10 : 10 ≤ (computeAnimNames all_names).length)
    (hops : ∀ op ∈ ops, OpWithinCatalog (computeAnimNames all_names).length op) :
    bindingsValid (applyOps (mkRCState all_names) ops) :=
  applyOps_bindings_valid ops (computeAnimNames all_names).length
    (mkRCState all_names) (by rw [mkRCState_anim_names])
    (mkRCState_valid all_names h10) hops

/-- Witness for `C8_binding_invariant`: the demo catalog and one in-range
rebinding of slot 0 to catalog entry 3. -/
theorem C8_binding_invariant_witness :
    10 ≤ (computeAnimNames demoAnims).length ∧
    bindingsValid (applyOps (mkRCState demoAnims) [Op.setAnim 0 3]) :=
  ⟨by decide,
   C8_binding_invariant demoAnims [Op.setAnim 0 3] (by decide)
     (by
       intro op hop
       rcases List.mem_singleton.mp hop with rfl
       show (3 : Nat) < (computeAnimNames demoAnims).length
       decide)⟩

/-! ## C10: the mouse-aim value stays in [-1.5, 1.5] -/

lemma remap_unit_bound (x : ℚ) :
    -(3/2 : ℚ) ≤ remap_to_range x 0 1 (-(3/2)) (3/2) ∧
    remap_to_range x 0 1 (-(3/2)) (3/2) ≤ 3/2 := by
  unfold remap_to_range
  split_ifs with h1 h2
  · exact ⟨le_refl _, by norm_num⟩
  · exact ⟨by norm_num, le_refl _⟩
  · push_neg at h1 h2
    have e1 : (x - 0) / ((1 : ℚ) - 0) * (3/2 - -(3/2)) = x * 3 := by
      norm_num
    rw [e1]
    constructor <;> linarith

lemma handle_mouse_mouse_dir (s : RCState) (x y ha : ℚ) :
    (handle_mouse s x y ha).1.mouse_dir = s.mouse_dir ∨
    (handle_mouse s x y ha).1.mouse_dir = remap_to_range x 0 1 (-(3/2)) (3/2) := by
  unfold handle_mouse
  split_ifs
  · right
    rfl
  · left
    rfl

lemma applyOp_mouse_dir_bound (s : RCState) (op : Op)
    (h1 : -(3/2 : ℚ) ≤ s.mouse_dir) (h2 : s.mouse_dir ≤ 3/2) :
    -(3/2 : ℚ) ≤ (applyOp s op).mouse_dir ∧ (applyOp s op).mouse_dir ≤ 3/2 := by
  cases op with
  | key kc sh al dn =>
    have hb : (applyOp s (Op.key kc sh al dn)).mouse_dir = s.mouse_dir := by
      show ((handle_key_enq (handle_key_pre s kc sh al dn).1 kc dn).getD
        (handle_key_pre s kc sh al dn).1).mouse_dir = s.mouse_dir
      cases hm : handle_key_enq (handle_key_pre s kc sh al dn).1 kc dn with
      | none => simp
      | some s2 =>
        have hf := (handle_key_enq_fields _ kc dn s2 hm).1
        simp [hf]
    rw [hb]
    exact ⟨h1, h2⟩
  | mouse x y ha =>
    have hd : (applyOp s (Op.mouse x y ha)).mouse_dir =
        (handle_mouse s x y ha).1.mouse_dir := rfl
    rcases handle_mouse_mouse_dir s x y ha with h | h
    · rw [hd, h]
      exact ⟨h1, h2⟩
    · rw [hd, h]
      exact remap_unit_bound x
  | setMouseLook e =>
    have hb : (set_mouse_look_enabled s e).1.mouse_dir = s.mouse_dir ∨
        (set_mouse_look_enabled s e).1.mouse_dir = 0 := by
      cases e <;> cases h : s.is_mouse_look_enabled <;>
        simp [set_mouse_look_enabled, h]
    have hd : (applyOp s (Op.setMouseLook e)).mouse_dir =
        (set_mouse_look_enabled s e).1.mouse_dir := rfl
    rw [hd]
    rcases hb with h | h
    · rw [h]
      exact ⟨h1, h2⟩
    · rw [h]
      norm_num
  | setAnim slot idx =>
    have hb : (applyOp s (Op.setAnim slot idx)).mouse_dir = s.mouse_dir := by
      show ((set_anim s slot idx).getD s).mouse_dir = s.mouse_dir
      unfold set_anim
      cases pyListSet s.anim_index_for_key slot idx <;> rfl
    rw [hb]
    exact ⟨h1, h2⟩
  | setText t => exact ⟨h1, h2⟩
  | tick c =>
    have hb : (applyOp s (Op.tick c)).mouse_dir = s.mouse_dir := by
      show (update s c).1.mouse_dir = s.mouse_dir
      unfold update
      cases s.action_queue with
      | nil => rfl
      | cons a rest => cases c <;> rfl
    rw [hb]
    exact ⟨h1, h2⟩

lemma applyOps_mouse_dir_bound (ops : List Op) :
    ∀ s : RCState, -(3/2 : ℚ) ≤ s.mouse_dir → s.mouse_dir ≤ 3/2 →
      -(3/2 : ℚ) ≤ (applyOps s ops).mouse_dir ∧ (applyOps s ops).mouse_dir ≤ 3/2 := by
  induction ops with
  | nil => exact fun s ha hb => ⟨ha, hb⟩
  | cons op ops ih =>
    intro s ha hb
    obtain ⟨g1, g2⟩ := applyOp_mouse_dir_bound s op ha hb
    exact ih (applyOp s op) g1 g2

/-- C10: after any sequence of boundary events on a fresh session — including
mouse moves with coordinates outside [0,1] — the stored `mouse_dir` lies in
[-3/2, 3/2] (that is, [-1.5, 1.5]): `remap_to_range` clamps below-range inputs
to `out_min` and above-range inputs to `out_max` before interpolating, and
every other operation either preserves the aim or resets it to 0. -/
theorem C10_mouse_aim_bounded (all_names : List String) (ops : List Op) :
    -(3/2 : ℚ) ≤ (applyOps (mkRCState all_names) ops).mouse_dir ∧
    (applyOps (mkRCState all_names) ops).mouse_dir ≤ 3/2 :=
  applyOps_mouse_dir_bound ops (mkRCState all_names)
    (by rw [mkRCState_mouse_dir]; norm_num)
    (by rw [mkRCState_mouse_dir]; norm_num)

end VC
